import Mathlib

/-!
Shallow embedding of the message-routing and intent-dispatch engine of
`src/main.py` (a Discord chat-bot front-end), together with theorems that
settle the frozen claims about it.

Conventions of the embedding:
* Python strings are Lean `String`s; `str.lower()` / `.strip()` /
  `.startswith` / `.endswith` are re-implemented over character lists
  (`lowerStr`, `stripStr`, `startsWithStr`, `endsWithStr`) so that they
  reduce inside the kernel.  `lowerChar` lowers the ASCII range, which
  covers every string the program compares.
* Python integers and Discord snowflake ids are `Nat`.
* The external AI capabilities (`classify_prompt`, `generate_image_merge`,
  `generate_img2img_with_retry`, `generate_image`, search / chat / analysis)
  are out of scope and are modelled as oracles bundled in a `World`; the
  dispatcher records every capability invocation in a `CapCall` trace.
* Outbound Discord messages are recorded as `Send` values tagging the
  send site and the `delete_after` argument used there (`none` when the
  source passes no `delete_after`).
* `random.randint(a, b)` is modelled by `randint raw a b = a + raw % (b-a+1)`
  where `raw` is drawn from an injected stream `World.randValue`; this
  captures exactly the contract that the result lies in `[a, b]` inclusive.
-/

namespace Coder

/-! ### String helpers (Python `lower` / `strip` / `startswith` / `endswith` / `in`) -/

/-- ASCII lowering of one character (models Python `str.lower` on the
ASCII strings this program compares). -/
def lowerChar (c : Char) : Char :=
  if 65 ≤ c.toNat ∧ c.toNat ≤ 90 then Char.ofNat (c.toNat + 32) else c

/-- Python `s.lower()`. -/
def lowerStr (s : String) : String := String.mk (s.toList.map lowerChar)

/-- Python `s.endswith(suf)`. -/
def endsWithStr (s suf : String) : Bool :=
  suf.toList.reverse.isPrefixOf s.toList.reverse

/-- Python `s.startswith(p)`. -/
def startsWithStr (s p : String) : Bool :=
  p.toList.isPrefixOf s.toList

/-- Whitespace characters removed by Python `str.strip()`. -/
def isSpaceChar (c : Char) : Bool :=
  c = ' ' || c = '\t' || c = '\n' || c = '\r'

/-- Python `s.strip()`. -/
def stripStr (s : String) : String :=
  String.mk (((s.toList.dropWhile isSpaceChar).reverse.dropWhile isSpaceChar).reverse)

/-- Python `needle in hay` for strings (substring containment). -/
def strContains (hay needle : String) : Bool :=
  let h := hay.toList
  let n := needle.toList
  (List.range (h.length + 1)).any (fun i => n.isPrefixOf (h.drop i))

/-- Python `x or default` on an optional string: `None` and the empty
string are falsy. -/
def pyOrStr (v : Option String) (d : String) : String :=
  match v with
  | some s => if s = "" then d else s
  | none => d

/-- Python truthiness of an optional string (`None` and `""` are falsy). -/
def pyTruthyStr (v : Option String) : Bool :=
  match v with
  | some s => s ≠ ""
  | none => false

/-- Model of Python `random.randint(a, b)` (both bounds inclusive): the
raw draw from the injected random stream is reduced into the range. -/
def randint (raw a b : Nat) : Nat := a + raw % (b - a + 1)

/-! ### Data model -/

/-- A Discord attachment, reduced to the two fields the router reads. -/
structure Attachment where
  filename : String
  url : String
deriving DecidableEq

/-- Outcome of resolving `message.reference` (lines 556-563): no reply
reference at all; a fetch that raised `NotFound`/`Forbidden`/`HTTPException`
(swallowed, `ref_msg` stays `None`); or the fetched referenced message,
reduced to its attachments. -/
inductive RefState where
  | noRef
  | fetchFailed
  | fetched (atts : List Attachment)
deriving DecidableEq

/-- An inbound Discord message, reduced to the fields `on_message` reads. -/
structure Msg where
  authorIsBot : Bool
  authorId : Nat
  /-- `none` models a direct message (`message.guild is None`). -/
  guildId : Option Nat
  channelId : Nat
  content : String
  attachments : List Attachment
  refState : RefState
  /-- `bot.user in message.mentions`. -/
  mentionsBot : Bool
  /-- `message.author.guild_permissions.administrator`. -/
  authorIsGuildAdmin : Bool
  /-- Text-capable channels of the guild (used only by the `wack` branch). -/
  guildTextChannels : List Nat
deriving DecidableEq

/-- Process-level configuration read from the environment at startup
(lines 23-25).  `botName` is stored already lowercased, as in the source
(`BOT_NAME = os.getenv(...).lower()`). -/
structure Config where
  ownerId : Nat
  botName : String
  defaultPfx : String
deriving DecidableEq

/-- The in-memory global state `on_message` consults: the settings-derived
sets, the custom prefixes, and the memory capability of the chat cog
(`ChannelActivationMap` plus the short-term-memory keys). -/
structure BotState where
  blocked_users : List Nat
  paused_servers : List Nat
  /-- Keyed by `str(guild_id)`, as in the source. -/
  whitelisted_channels : List (String × List Nat)
  pinging_enabled : List (Nat × Bool)
  /-- Keyed by `str(guild_id)`. -/
  custom_prefixes : List (String × String)
  /-- `bot.get_cog(ChatCog)` is available and has a `memory` attribute. -/
  memoryAvailable : Bool
  /-- Channels for which `memory.is_channel_active` is true. -/
  activeChannels : List Nat
  /-- Keys present in `memory.stm`. -/
  stmKeys : List String
deriving DecidableEq

/-- Result of a Python call that can raise: `ok` the returned value, or
`exn` with the exception text. -/
inductive PyRes (α : Type) where
  | ok (a : α)
  | exn (msg : String)
deriving DecidableEq

/-- The `(img_data, final_url, error)` tuple returned by the merge and
img2img capabilities, reduced to what the router inspects: whether
`img_data` is truthy, and the `error` component. -/
structure EditCallResult where
  imgOk : Bool
  errMsg : Option String
deriving DecidableEq

/-- The result of `generate_image`: whether it is a tuple/list of length
at least 3 (line 951), whether `img_data` is truthy and not the `"NSFW"`
sentinel (line 955), and the `seed` / `ai_params` components. -/
structure GenCallResult where
  wellFormed : Bool
  imgOk : Bool
  seed : Nat
  aiParams : Option String
deriving DecidableEq

/-- Outcome of the (at most one per run) file-sending `channel.send`:
success with the sent message id, `discord.HTTPException` with code 20009
(explicit content), or another `HTTPException`. -/
inductive SendOutcome where
  | success (msgId : Nat)
  | explicitContentError
  | httpError (msg : String)
deriving DecidableEq

/-- Oracles for everything outside the router: external capability
results, the single file-send outcome, the raw random stream, whether
`bot.get_context` found a valid command, and the image-download status. -/
structure World where
  classify_prompt : String → PyRes String
  generate_image_merge : String → List String → EditCallResult
  generate_img2img_with_retry : String → String → Nat → PyRes EditCallResult
  generate_image : String → Nat → GenCallResult
  /-- `get_valid_search_results`; `none` models a falsy (empty or `None`) result. -/
  get_valid_search_results : String → Option String
  /-- The `(response, error)` pair from `generate_ai_response`. -/
  web_ai_response : Option String × Option String
  /-- `generate_response_web` in the analysis branch. -/
  generate_response_web : String → Option String
  sendOutcome : SendOutcome
  randValue : Nat → Nat
  ctxValid : Bool
  /-- HTTP status of the image download in the analysis branch. -/
  downloadStatus : Nat
  /-- Text returned by `analyze_image`. -/
  analysis : String

/-- The intent-detection heuristics imported from `utils.ai`
(lines 566-571).  Their phrase lists are an external, tunable resource;
the router only consumes their boolean outputs, so they are parameters
of the embedding. -/
structure Detectors where
  detect_image_generation_intent : String → Bool
  detect_image_editing_intent : String → Bool → Bool
  detect_web_search_intent : String → Bool
  detect_image_merge_intent : String → Nat → Bool

/-- One external capability invocation, recorded in program order. -/
inductive CapCall where
  | classifyPrompt (text : String)
  | mergeImages (prompt : String) (urls : List String)
  | img2img (prompt : String) (url : String) (seed : Nat)
  | generateImage (prompt : String) (userId : Nat)
  | search (query : String)
  | chatCompletion (model : String) (timeoutSecs : Nat)
  | downloadImage (url : String)
  | analyzeImage
  | responseWeb (prompt : String)
deriving DecidableEq

/-- One outbound Discord message, tagged by its send site in the source. -/
inductive SendKind where
  | cmdUserBlocked
  | cmdBotPaused
  | cmdNotWhitelisted
  | channelActivatedNotice
  | channelDeactivatedNotice
  | alreadyInactiveNotice
  | memorySystemErrorNotice
  | adminOnlyNotice
  | wackCompleteNotice
  | mergeNsfwNotice
  | mergedImageFile
  | mergeContentBlocked
  | mergeSendFailed
  | mergeFailedNotice
  | batchNsfwNotice
  | batchEditedFiles
  | batchContentBlocked
  | batchSendFailed
  | batchPartialSummary
  | batchAllFailed
  | editNsfwNotice
  | editedImageFile
  | editContentBlocked
  | editSendFailed
  | editFailedNotice
  | noImageFoundNotice
  | mergeNeedTwoNotice
  | mergeInsufficientNotice
  | genNsfwNotice
  | generatedImageFile
  | genContentBlocked
  | genSendFailed
  | genFailedNotice
  | webAnswerMessage
  | analysisCombinedReply
  | analysisReply
deriving DecidableEq

/-- A delivered outbound message: its send site and the `delete_after`
argument passed at that site (`none` when the source passes none). -/
structure Send where
  kind : SendKind
  delete_after : Option Nat
deriving DecidableEq

/-- One `image_metadata` entry (the response-metadata store).  Fields
fields that the dict literal of a given branch does not contain are `none`. -/
structure MetaEntry where
  prompt : String
  seed : Option Nat
  type : String
  source_images : Option (List String)
  reference_image : Option String
  total_images : Option Nat
  failed_count : Option Nat
  ai_params : Option String
deriving DecidableEq

/-- A mutation of the memory capability performed by the
mention-command interpreter. -/
inductive MemOp where
  | activateChannel (ch : Nat)
  | deactivateChannel (ch : Nat)
  | resetMemory (key : String)
deriving DecidableEq

/-- Where `on_message` terminated for this message. -/
inductive HandlerResult where
  /-- Line 399-400: author is a bot, or the message has no guild (DM). -/
  | ignoredBotOrDM
  /-- Line 402-403: author is in `blocked_users`. -/
  | blockedReturn
  /-- A `return` inside the mention-command section (lines 408-528). -/
  | mentionHandled
  /-- Line 531-533: prefixed/slash command, handed to `process_commands`. -/
  | commandProcessed
  /-- Line 536-538: `ctx.valid`, returned without further processing. -/
  | ctxValidReturn
  /-- Line 602-603: `should_respond` is false, returned early. -/
  | notEligible
  /-- A `return` inside a dispatch branch. -/
  | dispatched
  /-- An uncaught exception escaped the handler. -/
  | raisedException
  /-- Line 1100: fell through to `bot.process_commands`. -/
  | fellThroughToCommands
deriving DecidableEq

/-- Observable effects of one `on_message` run. -/
structure Output where
  calls : List CapCall
  sends : List Send
  meta : List (String × MetaEntry)
  memOps : List MemOp
  result : HandlerResult
deriving DecidableEq

/-- Effects of one dispatch stage: `outcome = none` means the stage fell
through to the next one; `some r` means it returned. -/
structure StepOut where
  calls : List CapCall
  sends : List Send
  meta : List (String × MetaEntry)
  memOps : List MemOp
  outcome : Option HandlerResult
deriving DecidableEq

/-- A stage that does nothing and falls through. -/
def noneStep : StepOut := ⟨[], [], [], [], none⟩

/-- Sequencing of dispatch stages: if the first returned, the second
never runs; otherwise effects accumulate in program order. -/
def thenStep (s t : StepOut) : StepOut :=
  match s.outcome with
  | some _ => s
  | none => ⟨s.calls ++ t.calls, s.sends ++ t.sends, s.meta ++ t.meta,
             s.memOps ++ t.memOps, t.outcome⟩

/-! ### Attachment/Reference Image Collector (lines 540-563, 621-630, 707-717, 821-833) -/

/-- The image filename test used everywhere in `on_message`:
`att.filename.lower().endswith(...)` over the png/jpg/jpeg/gif/webp extensions. -/
def isImageAttachment (a : Attachment) : Bool :=
  let l := lowerStr a.filename
  endsWithStr l pngExt || endsWithStr l jpgExt || endsWithStr l jpegExt ||
    endsWithStr l gifExt || endsWithStr l webpExt
where
  pngExt : String := ".png"
  jpgExt : String := ".jpg"
  jpegExt : String := ".jpeg"
  gifExt : String := ".gif"
  webpExt : String := ".webp"

/-- `has_images_in_message` (line 541). -/
def has_images_in_message (atts : List Attachment) : Bool :=
  atts.any isImageAttachment

/-- `count_images_in_message` (line 545). -/
def count_images_in_message (atts : List Attachment) : Nat :=
  (atts.filter isImageAttachment).length

/-- `current_images` (line 549). -/
def current_images (m : Msg) : Bool := has_images_in_message m.attachments

/-- `current_image_count` (line 550). -/
def current_image_count (m : Msg) : Nat := count_images_in_message m.attachments

/-- The attachments of `ref_msg`: `none` when the message is not a reply
or the fetch raised (the exception is swallowed, line 562). -/
def ref_msg_atts (m : Msg) : Option (List Attachment) :=
  match m.refState with
  | .fetched atts => some atts
  | _ => none

/-- `ref_has_images` (lines 553, 559). -/
def ref_has_images (m : Msg) : Bool :=
  match ref_msg_atts m with
  | some atts => has_images_in_message atts
  | none => false

/-- `total_image_count` (lines 554, 560-561): the referenced count is
added only when the fetched reference has images. -/
def total_image_count (m : Msg) : Nat :=
  current_image_count m +
    (if ref_has_images m then
      (match ref_msg_atts m with
       | some atts => count_images_in_message atts
       | none => 0)
    else 0)

/-- `has_any_images` (line 610). -/
def has_any_images (m : Msg) : Bool := current_images m || ref_has_images m

/-- The `image_urls` list built by the merge and batch-edit branches
(lines 621-630 and 707-717): image attachments of the current message,
then of the referenced message when `ref_msg` is present. -/
def imageUrlsOf (m : Msg) : List String :=
  (m.attachments.filter isImageAttachment).map Attachment.url ++
    (match ref_msg_atts m with
     | some atts => (atts.filter isImageAttachment).map Attachment.url
     | none => [])

/-- The single `image_url` picked by the single-edit and analysis branches
(lines 821-833 and 1054-1064): first image of the current message, else
first image of the referenced message. -/
def firstImageUrl (m : Msg) : Option String :=
  if current_images m then
    ((m.attachments.filter isImageAttachment).map Attachment.url).head?
  else if ref_has_images m then
    match ref_msg_atts m with
    | some atts => ((atts.filter isImageAttachment).map Attachment.url).head?
    | none => none
  else none

/-! ### Merge-keyword removal (line 638): the case-insensitive removal of the word `merge` done by `re.sub` -/

/-- Word characters for the regex `\b` boundary. -/
def isWordChar (c : Char) : Bool := c.isAlphanum || c = '_'

/-- The characters of the removed keyword. -/
def mergeWordChars : List Char := ['m', 'e', 'r', 'g', 'e']

/-- Scanner for the `re.sub` keyword removal of line 638: removes every
case-insensitive occurrence of the word `merge` that is delimited by
non-word characters (or the string ends); `prev` is the character of the
original string just before the scan position (`none` at the start). -/
def stripMergeScan (cs : List Char) (prev : Option Char) : List Char :=
  match cs with
  | [] => []
  | c :: rest =>
    if (((c :: rest).take 5).map lowerChar == mergeWordChars)
        && (match prev with | some p => ! isWordChar p | none => true)
        && (match (c :: rest).drop 5 with
            | [] => true
            | d :: _ => ! isWordChar d) then
      stripMergeScan ((c :: rest).drop 5) (some 'e')
    else
      c :: stripMergeScan rest (some c)
termination_by cs.length
decreasing_by
  · simp [List.length_drop]; omega
  · simp

/-- The `re.sub` keyword removal of line 638 applied to a string. -/
def removeMergeWord (s : String) : String :=
  String.mk (stripMergeScan s.toList none)

/-! ### Intent Classifier (lines 605-614) -/

/-- `clean_message_content` (line 606). -/
def clean_message_content (m : Msg) : String := stripStr m.content

/-- The four intent flags (lines 609-614). -/
structure Intents where
  wants_generation : Bool
  wants_editing : Bool
  wants_web_search : Bool
  wants_merge : Bool
deriving DecidableEq

/-- Lines 610-614: `wants_generation` is the generation heuristic masked
by `not has_any_images`; the other flags pass the image information into
their heuristics. -/
def intents_of (d : Detectors) (m : Msg) : Intents :=
  let clean := clean_message_content m
  { wants_generation := d.detect_image_generation_intent clean && !(has_any_images m)
  , wants_editing := d.detect_image_editing_intent clean (has_any_images m)
  , wants_web_search := d.detect_web_search_intent clean
  , wants_merge := d.detect_image_merge_intent clean (total_image_count m) }

/-! ### Trigger eligibility (lines 573-603) -/

/-- Association lookup keyed by `str(guild_id)`. -/
def lookupByGuildKey (l : List (String × α)) (gid : Nat) : Option α :=
  (l.find? (fun p => decide (p.1 = toString gid))).map Prod.snd

/-- `should_respond` (lines 575-599): the channel is activated, or the
bot-name keyword occurs in the lowercased content (honoring a non-empty
whitelist); the final arm is the DM case of the source (line 597-599), which is
unreachable from `on_message` because guild-less messages return at
line 399. -/
def should_respond (cfg : Config) (st : BotState) (m : Msg) : Bool :=
  if st.memoryAvailable && st.activeChannels.contains m.channelId then
    true
  else
    let message_lower := lowerStr m.content
    if strContains message_lower cfg.botName then
      match m.guildId with
      | some gid =>
        match lookupByGuildKey st.whitelisted_channels gid with
        | some wl =>
          if wl ≠ [] then wl.contains m.channelId
          else true
        | none => true
      | none => true
    else false

/-! ### Mention-Command Interpreter (lines 407-528) -/

/-- The authorization test used by all three mention commands
(lines 414, 448, 491): owner, or guild administrator. -/
def adminAuthorized (cfg : Config) (m : Msg) : Bool :=
  m.authorId = cfg.ownerId ∨ (m.guildId.isSome ∧ m.authorIsGuildAdmin)

/-- The `activate` branch (lines 412-443). -/
def activateMention (cfg : Config) (st : BotState) (m : Msg) : Output :=
  if adminAuthorized cfg m then
    if st.memoryAvailable then
      ⟨[], [⟨.channelActivatedNotice, none⟩], [],
       [.activateChannel m.channelId], .mentionHandled⟩
    else ⟨[], [⟨.memorySystemErrorNotice, none⟩], [], [], .mentionHandled⟩
  else ⟨[], [⟨.adminOnlyNotice, none⟩], [], [], .mentionHandled⟩

/-- The `deactivate` branch (lines 446-486).  (Unreachable from
`on_message`: every content containing `deactivate` also contains the
substring `activate`, so the `activate` branch is taken first.) -/
def deactivateMention (cfg : Config) (st : BotState) (m : Msg) : Output :=
  if adminAuthorized cfg m then
    if st.memoryAvailable then
      if st.activeChannels.contains m.channelId then
        ⟨[], [⟨.channelDeactivatedNotice, none⟩], [],
         [.deactivateChannel m.channelId], .mentionHandled⟩
      else ⟨[], [⟨.alreadyInactiveNotice, none⟩], [], [], .mentionHandled⟩
    else ⟨[], [⟨.memorySystemErrorNotice, none⟩], [], [], .mentionHandled⟩
  else ⟨[], [⟨.adminOnlyNotice, none⟩], [], [], .mentionHandled⟩

/-- The short-term-memory key for one channel (line 498). -/
def memoryKeyOf (gid ch : Nat) : String := toString gid ++ "_" ++ toString ch

/-- The `wack` branch (lines 489-528): resets the short-term memory of
every text-capable guild channel that has an entry, and reports. -/
def wackMention (cfg : Config) (st : BotState) (m : Msg) : Output :=
  if adminAuthorized cfg m then
    if st.memoryAvailable then
      let gid := m.guildId.getD 0
      let cleared := m.guildTextChannels.filter
        (fun ch => st.stmKeys.contains (memoryKeyOf gid ch))
      ⟨[], [⟨.wackCompleteNotice, none⟩], [],
       cleared.map (fun ch => MemOp.resetMemory (memoryKeyOf gid ch)),
       .mentionHandled⟩
    else ⟨[], [⟨.memorySystemErrorNotice, none⟩], [], [], .mentionHandled⟩
  else ⟨[], [⟨.adminOnlyNotice, none⟩], [], [], .mentionHandled⟩

/-! ### Capability Dispatcher (lines 616-1100) -/

/-- The NSFW pre-check pattern used at lines 643-654, 724-736, 840-852 and
934-946: the classifier is awaited inside `try`; a literal `"NSFW"` verdict
blocks, any exception is swallowed and the request proceeds. -/
def nsfwBlocks (r : PyRes String) : Bool :=
  match r with
  | .ok s => decide (s = "NSFW")
  | .exn _ => false

/-- The fallback merge prompt (line 640). -/
def defaultMergePrompt : String := "combine these images"

/-- The merge branch (lines 616-701).  Falls through when the outer guard
fails or when fewer than two urls were collected (the source then leaves
the `if` body without returning). -/
def mergeBranch (w : World) (m : Msg) (wants_merge : Bool) : StepOut :=
  if wants_merge ∧ 2 ≤ total_image_count m then
    let image_urls := imageUrlsOf m
    if 2 ≤ image_urls.length then
      let stripped := stripStr (removeMergeWord (clean_message_content m))
      let merge_prompt := if stripped = "" then defaultMergePrompt else stripped
      if nsfwBlocks (w.classify_prompt merge_prompt) then
        ⟨[.classifyPrompt merge_prompt], [⟨.mergeNsfwNotice, some 30⟩], [], [],
         some .dispatched⟩
      else
        let r := w.generate_image_merge merge_prompt image_urls
        let calls := [CapCall.classifyPrompt merge_prompt,
                      CapCall.mergeImages merge_prompt image_urls]
        if r.imgOk ∧ r.errMsg = none then
          match w.sendOutcome with
          | .success msgId =>
            ⟨calls, [⟨.mergedImageFile, none⟩],
             [(toString msgId,
               { prompt := merge_prompt, seed := none, type := "merge",
                 source_images := some image_urls, reference_image := none,
                 total_images := none, failed_count := none, ai_params := none })],
             [], some .dispatched⟩
          | .explicitContentError =>
            ⟨calls, [⟨.mergeContentBlocked, none⟩], [], [], some .dispatched⟩
          | .httpError _ =>
            ⟨calls, [⟨.mergeSendFailed, none⟩], [], [], some .dispatched⟩
        else
          ⟨calls, [⟨.mergeFailedNotice, some 30⟩], [], [], some .dispatched⟩
    else noneStep
  else noneStep

/-- The per-image loop of the batch-edit branch (lines 741-752): each
image draws a fresh seed and is edited independently inside `try`;
successes become files `edited_image_(i+1).png`, failures and exceptions
become per-image error strings.  Returns (calls, edited files, failures). -/
def batchLoop (w : World) (prompt : String) :
    List String → Nat → List CapCall × List String × List String
  | [], _ => ([], [], [])
  | u :: rest, i =>
    let seed := randint (w.randValue i) 100000 999999
    let prev := batchLoop w prompt rest (i + 1)
    let call := CapCall.img2img prompt u seed
    match w.generate_img2img_with_retry prompt u seed with
    | .ok r =>
      if r.imgOk then
        (call :: prev.1, (r"edited_image_" ++ toString (i + 1) ++ r".png") :: prev.2.1, prev.2.2)
      else
        (call :: prev.1, prev.2.1,
         (r"Image " ++ toString (i + 1) ++ r": " ++ pyOrStr r.errMsg (r"Unknown error")) :: prev.2.2)
    | .exn e =>
      (call :: prev.1, prev.2.1, (r"Image " ++ toString (i + 1) ++ r": " ++ e) :: prev.2.2)

/-- The batch-edit branch (lines 703-816): 2+ images without merge intent. -/
def batchEditBranch (w : World) (m : Msg) (wants_editing wants_merge : Bool) : StepOut :=
  if wants_editing ∧ 2 ≤ total_image_count m ∧ ¬ wants_merge then
    let image_urls := imageUrlsOf m
    if 2 ≤ image_urls.length then
      let clean := clean_message_content m
      if nsfwBlocks (w.classify_prompt clean) then
        ⟨[.classifyPrompt clean], [⟨.batchNsfwNotice, some 30⟩], [], [],
         some .dispatched⟩
      else
        let bl := batchLoop w clean image_urls 0
        let edited_files := bl.2.1
        let failed_edits := bl.2.2
        let calls := CapCall.classifyPrompt clean :: bl.1
        if edited_files ≠ [] then
          match w.sendOutcome with
          | .success msgId =>
            let entry : MetaEntry :=
              { prompt := clean, seed := none, type := "batch_edit",
                source_images := some image_urls, reference_image := none,
                total_images := some edited_files.length,
                failed_count := some failed_edits.length, ai_params := none }
            if failed_edits ≠ [] then
              ⟨calls, [⟨.batchEditedFiles, none⟩, ⟨.batchPartialSummary, some 30⟩],
               [(toString msgId, entry)], [], some .dispatched⟩
            else
              ⟨calls, [⟨.batchEditedFiles, none⟩], [(toString msgId, entry)], [],
               some .dispatched⟩
          | .explicitContentError =>
            ⟨calls, [⟨.batchContentBlocked, none⟩], [], [], some .dispatched⟩
          | .httpError _ =>
            ⟨calls, [⟨.batchSendFailed, none⟩], [], [], some .dispatched⟩
        else
          ⟨calls, [⟨.batchAllFailed, some 30⟩], [], [], some .dispatched⟩
    else noneStep
  else noneStep

/-- The single-image edit branch (lines 818-898).  The
`generate_img2img_with_retry` call at line 855 is not wrapped in
`try`/`except`, so an exception there escapes the handler. -/
def singleEditBranch (w : World) (m : Msg) (wants_editing : Bool) : StepOut :=
  if wants_editing ∧ (current_images m ∨ ref_has_images m) ∧ total_image_count m = 1 then
    match firstImageUrl m with
    | some image_url =>
      let clean := clean_message_content m
      if nsfwBlocks (w.classify_prompt clean) then
        ⟨[.classifyPrompt clean], [⟨.editNsfwNotice, some 30⟩], [], [],
         some .dispatched⟩
      else
        let seed := randint (w.randValue 0) 100000 999999
        let calls := [CapCall.classifyPrompt clean,
                      CapCall.img2img clean image_url seed]
        match w.generate_img2img_with_retry clean image_url seed with
        | .ok r =>
          if r.imgOk then
            match w.sendOutcome with
            | .success msgId =>
              ⟨calls, [⟨.editedImageFile, none⟩],
               [(toString msgId,
                 { prompt := clean, seed := some seed, type := "img2img",
                   source_images := none, reference_image := some image_url,
                   total_images := none, failed_count := none, ai_params := none })],
               [], some .dispatched⟩
            | .explicitContentError =>
              ⟨calls, [⟨.editContentBlocked, none⟩], [], [], some .dispatched⟩
            | .httpError _ =>
              ⟨calls, [⟨.editSendFailed, none⟩], [], [], some .dispatched⟩
          else
            ⟨calls, [⟨.editFailedNotice, some 30⟩], [], [], some .dispatched⟩
        | .exn _ => ⟨calls, [], [], [], some .raisedException⟩
    | none => noneStep
  else noneStep

/-- Editing requested with zero images (lines 900-908). -/
def noImageBranch (m : Msg) (wants_editing : Bool) : StepOut :=
  if wants_editing ∧ ¬ (current_images m ∨ ref_has_images m) then
    ⟨[], [⟨.noImageFoundNotice, some 30⟩], [], [], some .dispatched⟩
  else noneStep

/-- Merge requested with exactly one image (lines 910-918). -/
def mergeOneImageBranch (m : Msg) (wants_merge : Bool) : StepOut :=
  if wants_merge ∧ total_image_count m = 1 then
    ⟨[], [⟨.mergeNeedTwoNotice, some 30⟩], [], [], some .dispatched⟩
  else noneStep

/-- Merge requested with fewer than two images (lines 920-927). -/
def mergeInsufficientBranch (m : Msg) (wants_merge : Bool) : StepOut :=
  if wants_merge ∧ total_image_count m < 2 then
    ⟨[], [⟨.mergeInsufficientNotice, some 30⟩], [], [], some .dispatched⟩
  else noneStep

/-- The generation branch (lines 929-996). -/
def generationBranch (w : World) (m : Msg) (wants_generation : Bool) : StepOut :=
  if wants_generation then
    let clean := clean_message_content m
    if nsfwBlocks (w.classify_prompt clean) then
      ⟨[.classifyPrompt clean], [⟨.genNsfwNotice, some 30⟩], [], [],
       some .dispatched⟩
    else
      let r := w.generate_image clean m.authorId
      let calls := [CapCall.classifyPrompt clean,
                    CapCall.generateImage clean m.authorId]
      if r.wellFormed ∧ r.imgOk then
        match w.sendOutcome with
        | .success msgId =>
          ⟨calls, [⟨.generatedImageFile, none⟩],
           [(toString msgId,
             { prompt := clean, seed := some r.seed, type := "generation",
               source_images := none, reference_image := none,
               total_images := none, failed_count := none,
               ai_params := r.aiParams })],
           [], some .dispatched⟩
        | .explicitContentError =>
          ⟨calls, [⟨.genContentBlocked, none⟩], [], [], some .dispatched⟩
        | .httpError _ =>
          ⟨calls, [⟨.genSendFailed, none⟩], [], [], some .dispatched⟩
      else
        ⟨calls, [⟨.genFailedNotice, some 30⟩], [], [], some .dispatched⟩
  else noneStep

/-- The chat-completion model used by the web-search branch (line 1038). -/
def geminiModel : String := "gemini-2.0-flash"

/-- The web-search branch (lines 998-1043): search, then a chat
completion over the assembled search-results prompt (model
`gemini-2.0-flash`, 30-second timeout); falls through silently when the
search or the completion yields nothing. -/
def webSearchBranch (w : World) (m : Msg) (wants_web_search : Bool) : StepOut :=
  if wants_web_search then
    let clean := clean_message_content m
    let sr := w.get_valid_search_results clean
    if pyTruthyStr sr then
      let calls := [CapCall.search clean, CapCall.chatCompletion geminiModel 30]
      let (response, errv) := w.web_ai_response
      if pyTruthyStr response ∧ ¬ pyTruthyStr errv then
        ⟨calls, [⟨.webAnswerMessage, none⟩], [], [], some .dispatched⟩
      else ⟨calls, [], [], [], none⟩
    else ⟨[CapCall.search clean], [], [], [], none⟩
  else noneStep

/-- Line 1078 reads the name `message_content`.  That name is never
assigned anywhere in `on_message` (the variables actually in scope are
`clean_message_content` and, on a path that returned earlier,
`message_lower`), so evaluating it raises `NameError`, which the
surrounding `except Exception` swallows. -/
def message_content : PyRes String :=
  PyRes.exn (r"NameError: name message_content is not defined")

/-- The image-analysis branch (lines 1045-1098): when images are present
and no other intent matched, download the first image and analyze it.
The code after the analysis dereferences the unassigned name
`message_content` (line 1078); the resulting `NameError` is caught by the
blanket `except`, which prints and falls through to command processing.
The `.ok` arm below transcribes lines 1078-1095 as written, but it is
unreachable. -/
def imageAnalysisBranch (w : World) (m : Msg) (its : Intents) : StepOut :=
  if has_any_images m ∧ ¬ its.wants_editing ∧ ¬ its.wants_merge
      ∧ ¬ its.wants_generation ∧ ¬ its.wants_web_search then
    match firstImageUrl m with
    | some image_url =>
      if w.downloadStatus = 200 then
        let calls := [CapCall.downloadImage image_url, CapCall.analyzeImage]
        match message_content with
        | .ok mc =>
          if stripStr mc ≠ "" then
            let combined := r"User message: " ++ mc ++ r"; Image analysis: " ++
              w.analysis ++ r"; Please respond to the user message with the image context in mind."
            let calls2 := calls ++ [CapCall.responseWeb combined]
            match w.generate_response_web combined with
            | some response =>
              if response ≠ "" then
                ⟨calls2, [⟨.analysisCombinedReply, none⟩], [], [], some .dispatched⟩
              else ⟨calls2, [], [], [], none⟩
            | none => ⟨calls2, [], [], [], none⟩
          else
            ⟨calls, [⟨.analysisReply, none⟩], [], [], some .dispatched⟩
        | .exn _ => ⟨calls, [], [], [], none⟩
      else ⟨[CapCall.downloadImage image_url], [], [], [], none⟩
    | none => noneStep
  else noneStep

/-- The dispatch pipeline for a trigger-eligible non-command message:
the branches of lines 616-1098 in program order; when none of them
returns, the message reaches `bot.process_commands` (line 1100). -/
def dispatchMessage (det : Detectors) (w : World) (m : Msg) : Output :=
  let its := intents_of det m
  let s := thenStep (mergeBranch w m its.wants_merge)
    (thenStep (batchEditBranch w m its.wants_editing its.wants_merge)
      (thenStep (singleEditBranch w m its.wants_editing)
        (thenStep (noImageBranch m its.wants_editing)
          (thenStep (mergeOneImageBranch m its.wants_merge)
            (thenStep (mergeInsufficientBranch m its.wants_merge)
              (thenStep (generationBranch w m its.wants_generation)
                (thenStep (webSearchBranch w m its.wants_web_search)
                  (imageAnalysisBranch w m its))))))))
  ⟨s.calls, s.sends, s.meta, s.memOps, s.outcome.getD .fellThroughToCommands⟩

/-- The three mention-command keywords (lines 412, 446, 489). -/
def kwActivate : String := "activate"

/-- See `kwActivate`. -/
def kwDeactivate : String := "deactivate"

/-- See `kwActivate`. -/
def kwWack : String := "wack"

/-- The slash-command marker checked at line 531. -/
def slashStr : String := "/"

/-- The `on_message` event handler (lines 397-1100). -/
def on_message (cfg : Config) (det : Detectors) (w : World) (st : BotState)
    (m : Msg) : Output :=
  if m.authorIsBot then ⟨[], [], [], [], .ignoredBotOrDM⟩
  else
    match m.guildId with
    | none => ⟨[], [], [], [], .ignoredBotOrDM⟩
    | some gid =>
      if m.authorId ∈ st.blocked_users then ⟨[], [], [], [], .blockedReturn⟩
      else
        let content_lower := lowerStr m.content
        if m.mentionsBot ∧ strContains content_lower kwActivate then
          activateMention cfg st m
        else if m.mentionsBot ∧ strContains content_lower kwDeactivate then
          deactivateMention cfg st m
        else if m.mentionsBot ∧ strContains content_lower kwWack then
          wackMention cfg st m
        else
          let cur := (lookupByGuildKey st.custom_prefixes gid).getD cfg.defaultPfx
          if startsWithStr (stripStr m.content) cur
              ∨ startsWithStr (stripStr m.content) slashStr then
            ⟨[], [], [], [], .commandProcessed⟩
          else if w.ctxValid then ⟨[], [], [], [], .ctxValidReturn⟩
          else if ¬ should_respond cfg st m then ⟨[], [], [], [], .notEligible⟩
          else dispatchMessage det w m

/-! ### Access Gate for prefixed commands: `global_command_check` (lines 197-245) -/

/-- The persisted `settings.json` document; a field is `none` when the
key is absent from the document. -/
structure SettingsDoc where
  blocked : Option (List Nat)
  paused : Option (List Nat)
  whitelist : Option (List (String × List Nat))
deriving DecidableEq

/-- The settings-derived globals consulted by the gate. -/
structure LoadedSettings where
  blocked_users : List Nat
  paused_servers : List Nat
  whitelisted_channels : List (String × List Nat)
deriving DecidableEq

/-- `load_settings` (lines 89-125): when the settings file exists its
document is merged over the current settings dict (`settings.update`),
so keys absent from the document keep their previous values; when the
file does not exist the settings reset to the defaults.  `blocked_users`
and `paused_servers` are rebuilt from the resulting dict. -/
def load_settings (old : LoadedSettings) (store : Option SettingsDoc) : LoadedSettings :=
  match store with
  | some d =>
    { blocked_users := d.blocked.getD old.blocked_users
    , paused_servers := d.paused.getD old.paused_servers
    , whitelisted_channels := d.whitelist.getD old.whitelisted_channels }
  | none => ⟨[], [], []⟩

/-- The invocation context of a prefixed command. -/
structure CmdCtx where
  guildId : Option Nat
  authorId : Nat
  channelId : Nat
deriving DecidableEq

/-- Result of the global command check: allow the command, or deny it
with the notice that was sent. -/
inductive CheckResult where
  | allowed
  | denied (notice : Send)
deriving DecidableEq

/-- `global_command_check` (lines 197-245): in a guild context it first
re-loads the persisted settings (line 203), then denies a blocked author
(notice deleted after 15 s), then a paused guild (30 s), then, when a
non-empty whitelist exists for the guild, a channel outside it (30 s);
otherwise the command is allowed.  Guild-less invocations are allowed
without any check. -/
def global_command_check (old : LoadedSettings) (store : Option SettingsDoc)
    (ctx : CmdCtx) : CheckResult :=
  match ctx.guildId with
  | none => .allowed
  | some gid =>
    let st := load_settings old store
    if ctx.authorId ∈ st.blocked_users then
      .denied ⟨.cmdUserBlocked, some 15⟩
    else if gid ∈ st.paused_servers then
      .denied ⟨.cmdBotPaused, some 30⟩
    else
      match lookupByGuildKey st.whitelisted_channels gid with
      | some wl =>
        if wl ≠ [] then
          if ctx.channelId ∉ wl then .denied ⟨.cmdNotWhitelisted, some 30⟩
          else .allowed
        else .allowed
      | none => .allowed

/-! ### Invariant predicates used by the theorems -/

/-- The `delete_after` value the source passes at each send site
(`none` where the source passes no `delete_after`).  Transcribed from
the send calls of `src/main.py`; the conformance theorems prove that
every send produced by the embedded handler carries exactly this value. -/
def expectedDelete : SendKind → Option Nat
  | .cmdUserBlocked => some 15
  | .cmdBotPaused => some 30
  | .cmdNotWhitelisted => some 30
  | .mergeNsfwNotice => some 30
  | .mergeFailedNotice => some 30
  | .batchNsfwNotice => some 30
  | .batchPartialSummary => some 30
  | .batchAllFailed => some 30
  | .editNsfwNotice => some 30
  | .editFailedNotice => some 30
  | .noImageFoundNotice => some 30
  | .mergeNeedTwoNotice => some 30
  | .mergeInsufficientNotice => some 30
  | .genNsfwNotice => some 30
  | .genFailedNotice => some 30
  | _ => none

/-- Every send in the list carries the lifetime of `expectedDelete`. -/
def sendsConform (l : List Send) : Bool :=
  l.all (fun s => s.delete_after == expectedDelete s.kind)

/-- Discriminator for generation-capability calls. -/
def isGenCall : CapCall → Bool
  | .generateImage _ _ => true
  | _ => false

/-- No generation-capability call occurs in the trace. -/
def noGenCalls (l : List CapCall) : Bool :=
  l.all (fun c => ! isGenCall c)

/-- Every img2img call in the trace uses a seed in `[100000, 999999]`. -/
def seedOkCall : CapCall → Bool
  | .img2img _ _ s => decide (100000 ≤ s ∧ s ≤ 999999)
  | _ => true

/-- See `seedOkCall`. -/
def seedsOk (l : List CapCall) : Bool :=
  l.all seedOkCall

/-- A metadata entry of type `img2img` stores exactly the prompt and the
seed of an img2img capability call present in the trace. -/
def metaEntryOk (calls : List CapCall) (p : String × MetaEntry) : Bool :=
  (p.2.type != "img2img") ||
    calls.any (fun c =>
      match c with
      | .img2img q _ s => q == p.2.prompt && (some s : Option Nat) == p.2.seed
      | _ => false)

/-- `metaEntryOk` over a dispatch stage. -/
def metaOkS (s : StepOut) : Bool := s.meta.all (metaEntryOk s.calls)

/-- `metaEntryOk` over a full handler run. -/
def metaOkO (o : Output) : Bool := o.meta.all (metaEntryOk o.calls)

/-! ### Composition lemmas for `thenStep` -/

theorem thenStep_sendsConform {s t : StepOut}
    (hs : sendsConform s.sends = true) (ht : sendsConform t.sends = true) :
    sendsConform (thenStep s t).sends = true := by
  unfold thenStep
  split
  · exact hs
  · simp only [sendsConform, List.all_append] at *
    simp [hs, ht]

theorem thenStep_noGen {s t : StepOut}
    (hs : noGenCalls s.calls = true) (ht : noGenCalls t.calls = true) :
    noGenCalls (thenStep s t).calls = true := by
  unfold thenStep
  split
  · exact hs
  · simp only [noGenCalls, List.all_append] at *
    simp [hs, ht]

theorem thenStep_seedsOk {s t : StepOut}
    (hs : seedsOk s.calls = true) (ht : seedsOk t.calls = true) :
    seedsOk (thenStep s t).calls = true := by
  unfold thenStep
  split
  · exact hs
  · simp only [seedsOk, List.all_append] at *
    simp [hs, ht]

theorem metaEntryOk_append_left {cs ds : List CapCall} {p : String × MetaEntry}
    (h : metaEntryOk cs p = true) : metaEntryOk (cs ++ ds) p = true := by
  unfold metaEntryOk at *
  rcases Bool.or_eq_true_iff.mp h with h1 | h2
  · simp [h1]
  · simp [List.any_append, h2]

theorem metaEntryOk_append_right {cs ds : List CapCall} {p : String × MetaEntry}
    (h : metaEntryOk ds p = true) : metaEntryOk (cs ++ ds) p = true := by
  unfold metaEntryOk at *
  rcases Bool.or_eq_true_iff.mp h with h1 | h2
  · simp [h1]
  · simp [List.any_append, h2]

theorem thenStep_metaOk {s t : StepOut}
    (hs : metaOkS s = true) (ht : metaOkS t = true) :
    metaOkS (thenStep s t) = true := by
  unfold thenStep
  split
  · exact hs
  · unfold metaOkS at *
    dsimp only
    rw [List.all_append, Bool.and_eq_true]
    constructor
    · rw [List.all_eq_true] at hs ⊢
      exact fun p hp => metaEntryOk_append_left (hs p hp)
    · rw [List.all_eq_true] at ht ⊢
      exact fun p hp => metaEntryOk_append_right (ht p hp)

/-! ### Per-branch conformance lemmas -/

theorem mergeBranch_sendsConform (w : World) (m : Msg) (wm : Bool) :
    sendsConform (mergeBranch w m wm).sends = true := by
  unfold mergeBranch
  dsimp only
  repeat' split
  all_goals rfl

theorem batchEditBranch_sendsConform (w : World) (m : Msg) (we wm : Bool) :
    sendsConform (batchEditBranch w m we wm).sends = true := by
  unfold batchEditBranch
  dsimp only
  repeat' split
  all_goals rfl

theorem singleEditBranch_sendsConform (w : World) (m : Msg) (we : Bool) :
    sendsConform (singleEditBranch w m we).sends = true := by
  unfold singleEditBranch
  dsimp only
  repeat' split
  all_goals rfl

theorem noImageBranch_sendsConform (m : Msg) (we : Bool) :
    sendsConform (noImageBranch m we).sends = true := by
  unfold noImageBranch
  split
  all_goals rfl

theorem mergeOneImageBranch_sendsConform (m : Msg) (wm : Bool) :
    sendsConform (mergeOneImageBranch m wm).sends = true := by
  unfold mergeOneImageBranch
  split
  all_goals rfl

theorem mergeInsufficientBranch_sendsConform (m : Msg) (wm : Bool) :
    sendsConform (mergeInsufficientBranch m wm).sends = true := by
  unfold mergeInsufficientBranch
  split
  all_goals rfl

theorem generationBranch_sendsConform (w : World) (m : Msg) (wg : Bool) :
    sendsConform (generationBranch w m wg).sends = true := by
  unfold generationBranch
  dsimp only
  repeat' split
  all_goals rfl

theorem webSearchBranch_sendsConform (w : World) (m : Msg) (ws : Bool) :
    sendsConform (webSearchBranch w m ws).sends = true := by
  unfold webSearchBranch
  dsimp only
  repeat' split
  all_goals rfl

theorem imageAnalysisBranch_sendsConform (w : World) (m : Msg) (its : Intents) :
    sendsConform (imageAnalysisBranch w m its).sends = true := by
  unfold imageAnalysisBranch
  dsimp only
  repeat' split
  all_goals rfl

theorem activateMention_sendsConform (cfg : Config) (st : BotState) (m : Msg) :
    sendsConform (activateMention cfg st m).sends = true := by
  unfold activateMention
  repeat' split
  all_goals rfl

theorem deactivateMention_sendsConform (cfg : Config) (st : BotState) (m : Msg) :
    sendsConform (deactivateMention cfg st m).sends = true := by
  unfold deactivateMention
  repeat' split
  all_goals rfl

theorem wackMention_sendsConform (cfg : Config) (st : BotState) (m : Msg) :
    sendsConform (wackMention cfg st m).sends = true := by
  unfold wackMention
  dsimp only
  repeat' split
  all_goals rfl

theorem dispatchMessage_sendsConform (det : Detectors) (w : World) (m : Msg) :
    sendsConform (dispatchMessage det w m).sends = true := by
  unfold dispatchMessage
  dsimp only
  exact thenStep_sendsConform (mergeBranch_sendsConform ..)
    (thenStep_sendsConform (batchEditBranch_sendsConform ..)
      (thenStep_sendsConform (singleEditBranch_sendsConform ..)
        (thenStep_sendsConform (noImageBranch_sendsConform ..)
          (thenStep_sendsConform (mergeOneImageBranch_sendsConform ..)
            (thenStep_sendsConform (mergeInsufficientBranch_sendsConform ..)
              (thenStep_sendsConform (generationBranch_sendsConform ..)
                (thenStep_sendsConform (webSearchBranch_sendsConform ..)
                  (imageAnalysisBranch_sendsConform ..))))))))

theorem on_message_sendsConform (cfg : Config) (det : Detectors) (w : World)
    (st : BotState) (m : Msg) :
    sendsConform (on_message cfg det w st m).sends = true := by
  unfold on_message
  dsimp only
  repeat' split
  all_goals first
    | rfl
    | exact activateMention_sendsConform ..
    | exact deactivateMention_sendsConform ..
    | exact wackMention_sendsConform ..
    | exact dispatchMessage_sendsConform ..

/-! ### Seed-range and generation-call lemmas -/

theorem randint_mem (raw : Nat) :
    100000 ≤ randint raw 100000 999999 ∧ randint raw 100000 999999 ≤ 999999 := by
  unfold randint
  have h : raw % (999999 - 100000 + 1) < 900000 := Nat.mod_lt _ (by norm_num)
  omega

theorem seedOkCall_randint (p u : String) (raw : Nat) :
    seedOkCall (CapCall.img2img p u (randint raw 100000 999999)) = true := by
  simp only [seedOkCall, decide_eq_true_eq]
  exact randint_mem raw

theorem batchLoop_noGen (w : World) (prompt : String) (urls : List String) :
    ∀ i, noGenCalls (batchLoop w prompt urls i).1 = true := by
  induction urls with
  | nil => intro i; rfl
  | cons u rest ih =>
    intro i
    have ih2 := ih (i + 1)
    unfold batchLoop
    dsimp only
    repeat' split
    all_goals simp_all [noGenCalls, isGenCall]

theorem batchLoop_seedsOk (w : World) (prompt : String) (urls : List String) :
    ∀ i, seedsOk (batchLoop w prompt urls i).1 = true := by
  induction urls with
  | nil => intro i; rfl
  | cons u rest ih =>
    intro i
    have ih2 := ih (i + 1)
    have hr := seedOkCall_randint prompt u (w.randValue i)
    unfold batchLoop
    dsimp only
    repeat' split
    all_goals simp_all [seedsOk]

theorem mergeBranch_noGen (w : World) (m : Msg) (wm : Bool) :
    noGenCalls (mergeBranch w m wm).calls = true := by
  unfold mergeBranch
  dsimp only
  repeat' split
  all_goals rfl

theorem batchEditBranch_noGen (w : World) (m : Msg) (we wm : Bool) :
    noGenCalls (batchEditBranch w m we wm).calls = true := by
  unfold batchEditBranch
  dsimp only
  have hl := batchLoop_noGen w (clean_message_content m) (imageUrlsOf m) 0
  repeat' split
  all_goals simp_all [noGenCalls, isGenCall, noneStep]

theorem singleEditBranch_noGen (w : World) (m : Msg) (we : Bool) :
    noGenCalls (singleEditBranch w m we).calls = true := by
  unfold singleEditBranch
  dsimp only
  repeat' split
  all_goals rfl

theorem noImageBranch_noGen (m : Msg) (we : Bool) :
    noGenCalls (noImageBranch m we).calls = true := by
  unfold noImageBranch
  split
  all_goals rfl

theorem mergeOneImageBranch_noGen (m : Msg) (wm : Bool) :
    noGenCalls (mergeOneImageBranch m wm).calls = true := by
  unfold mergeOneImageBranch
  split
  all_goals rfl

theorem mergeInsufficientBranch_noGen (m : Msg) (wm : Bool) :
    noGenCalls (mergeInsufficientBranch m wm).calls = true := by
  unfold mergeInsufficientBranch
  split
  all_goals rfl

theorem generationBranch_noGen_of_false (w : World) (m : Msg) :
    noGenCalls (generationBranch w m false).calls = true := rfl

theorem webSearchBranch_noGen (w : World) (m : Msg) (ws : Bool) :
    noGenCalls (webSearchBranch w m ws).calls = true := by
  unfold webSearchBranch
  dsimp only
  repeat' split
  all_goals rfl

theorem imageAnalysisBranch_noGen (w : World) (m : Msg) (its : Intents) :
    noGenCalls (imageAnalysisBranch w m its).calls = true := by
  unfold imageAnalysisBranch
  dsimp only
  repeat' split
  all_goals rfl

theorem mergeBranch_seedsOk (w : World) (m : Msg) (wm : Bool) :
    seedsOk (mergeBranch w m wm).calls = true := by
  unfold mergeBranch
  dsimp only
  repeat' split
  all_goals rfl

theorem batchEditBranch_seedsOk (w : World) (m : Msg) (we wm : Bool) :
    seedsOk (batchEditBranch w m we wm).calls = true := by
  unfold batchEditBranch
  dsimp only
  have hl := batchLoop_seedsOk w (clean_message_content m) (imageUrlsOf m) 0
  repeat' split
  all_goals simp_all [seedsOk, seedOkCall, noneStep]

theorem singleEditBranch_seedsOk (w : World) (m : Msg) (we : Bool) :
    seedsOk (singleEditBranch w m we).calls = true := by
  have hr := randint_mem (w.randValue 0)
  unfold singleEditBranch
  dsimp only
  repeat' split
  all_goals first
    | rfl
    | simp [seedsOk, seedOkCall, decide_eq_true_eq, hr]

theorem noImageBranch_seedsOk (m : Msg) (we : Bool) :
    seedsOk (noImageBranch m we).calls = true := by
  unfold noImageBranch
  split
  all_goals rfl

theorem mergeOneImageBranch_seedsOk (m : Msg) (wm : Bool) :
    seedsOk (mergeOneImageBranch m wm).calls = true := by
  unfold mergeOneImageBranch
  split
  all_goals rfl

theorem mergeInsufficientBranch_seedsOk (m : Msg) (wm : Bool) :
    seedsOk (mergeInsufficientBranch m wm).calls = true := by
  unfold mergeInsufficientBranch
  split
  all_goals rfl

theorem generationBranch_seedsOk (w : World) (m : Msg) (wg : Bool) :
    seedsOk (generationBranch w m wg).calls = true := by
  unfold generationBranch
  dsimp only
  repeat' split
  all_goals rfl

theorem webSearchBranch_seedsOk (w : World) (m : Msg) (ws : Bool) :
    seedsOk (webSearchBranch w m ws).calls = true := by
  unfold webSearchBranch
  dsimp only
  repeat' split
  all_goals rfl

theorem imageAnalysisBranch_seedsOk (w : World) (m : Msg) (its : Intents) :
    seedsOk (imageAnalysisBranch w m its).calls = true := by
  unfold imageAnalysisBranch
  dsimp only
  repeat' split
  all_goals rfl

/-! ### Metadata-conformance lemmas -/

theorem mergeBranch_metaOk (w : World) (m : Msg) (wm : Bool) :
    metaOkS (mergeBranch w m wm) = true := by
  unfold mergeBranch
  dsimp only
  repeat' split
  all_goals rfl

theorem batchEditBranch_metaOk (w : World) (m : Msg) (we wm : Bool) :
    metaOkS (batchEditBranch w m we wm) = true := by
  unfold batchEditBranch
  dsimp only
  repeat' split
  all_goals rfl

theorem singleEditBranch_metaOk (w : World) (m : Msg) (we : Bool) :
    metaOkS (singleEditBranch w m we) = true := by
  unfold singleEditBranch
  dsimp only
  repeat' split
  all_goals first
    | rfl
    | simp [metaOkS, metaEntryOk, List.any_cons]

theorem noImageBranch_metaOk (m : Msg) (we : Bool) :
    metaOkS (noImageBranch m we) = true := by
  unfold noImageBranch
  split
  all_goals rfl

theorem mergeOneImageBranch_metaOk (m : Msg) (wm : Bool) :
    metaOkS (mergeOneImageBranch m wm) = true := by
  unfold mergeOneImageBranch
  split
  all_goals rfl

theorem mergeInsufficientBranch_metaOk (m : Msg) (wm : Bool) :
    metaOkS (mergeInsufficientBranch m wm) = true := by
  unfold mergeInsufficientBranch
  split
  all_goals rfl

theorem generationBranch_metaOk (w : World) (m : Msg) (wg : Bool) :
    metaOkS (generationBranch w m wg) = true := by
  unfold generationBranch
  dsimp only
  repeat' split
  all_goals rfl

theorem webSearchBranch_metaOk (w : World) (m : Msg) (ws : Bool) :
    metaOkS (webSearchBranch w m ws) = true := by
  unfold webSearchBranch
  dsimp only
  repeat' split
  all_goals rfl

theorem imageAnalysisBranch_metaOk (w : World) (m : Msg) (its : Intents) :
    metaOkS (imageAnalysisBranch w m its) = true := by
  unfold imageAnalysisBranch
  dsimp only
  repeat' split
  all_goals rfl

/-! ### Mention branches perform no capability calls and write no metadata -/

theorem activateMention_calls_nil (cfg : Config) (st : BotState) (m : Msg) :
    (activateMention cfg st m).calls = [] ∧ (activateMention cfg st m).meta = [] := by
  unfold activateMention
  repeat' split
  all_goals exact ⟨rfl, rfl⟩

theorem deactivateMention_calls_nil (cfg : Config) (st : BotState) (m : Msg) :
    (deactivateMention cfg st m).calls = [] ∧ (deactivateMention cfg st m).meta = [] := by
  unfold deactivateMention
  repeat' split
  all_goals exact ⟨rfl, rfl⟩

theorem wackMention_calls_nil (cfg : Config) (st : BotState) (m : Msg) :
    (wackMention cfg st m).calls = [] ∧ (wackMention cfg st m).meta = [] := by
  unfold wackMention
  dsimp only
  repeat' split
  all_goals exact ⟨rfl, rfl⟩

/-! ### Handler-level aggregate lemmas -/

theorem dispatchMessage_seedsOk (det : Detectors) (w : World) (m : Msg) :
    seedsOk (dispatchMessage det w m).calls = true := by
  unfold dispatchMessage
  dsimp only
  exact thenStep_seedsOk (mergeBranch_seedsOk ..)
    (thenStep_seedsOk (batchEditBranch_seedsOk ..)
      (thenStep_seedsOk (singleEditBranch_seedsOk ..)
        (thenStep_seedsOk (noImageBranch_seedsOk ..)
          (thenStep_seedsOk (mergeOneImageBranch_seedsOk ..)
            (thenStep_seedsOk (mergeInsufficientBranch_seedsOk ..)
              (thenStep_seedsOk (generationBranch_seedsOk ..)
                (thenStep_seedsOk (webSearchBranch_seedsOk ..)
                  (imageAnalysisBranch_seedsOk ..))))))))

theorem dispatchMessage_metaOk (det : Detectors) (w : World) (m : Msg) :
    metaOkO (dispatchMessage det w m) = true := by
  unfold dispatchMessage
  dsimp only
  exact thenStep_metaOk (mergeBranch_metaOk ..)
    (thenStep_metaOk (batchEditBranch_metaOk ..)
      (thenStep_metaOk (singleEditBranch_metaOk ..)
        (thenStep_metaOk (noImageBranch_metaOk ..)
          (thenStep_metaOk (mergeOneImageBranch_metaOk ..)
            (thenStep_metaOk (mergeInsufficientBranch_metaOk ..)
              (thenStep_metaOk (generationBranch_metaOk ..)
                (thenStep_metaOk (webSearchBranch_metaOk ..)
                  (imageAnalysisBranch_metaOk ..))))))))

theorem dispatchMessage_noGen (det : Detectors) (w : World) (m : Msg)
    (h : (intents_of det m).wants_generation = false) :
    noGenCalls (dispatchMessage det w m).calls = true := by
  unfold dispatchMessage
  dsimp only
  rw [h]
  exact thenStep_noGen (mergeBranch_noGen ..)
    (thenStep_noGen (batchEditBranch_noGen ..)
      (thenStep_noGen (singleEditBranch_noGen ..)
        (thenStep_noGen (noImageBranch_noGen ..)
          (thenStep_noGen (mergeOneImageBranch_noGen ..)
            (thenStep_noGen (mergeInsufficientBranch_noGen ..)
              (thenStep_noGen (generationBranch_noGen_of_false ..)
                (thenStep_noGen (webSearchBranch_noGen ..)
                  (imageAnalysisBranch_noGen ..))))))))

theorem on_message_seedsOk (cfg : Config) (det : Detectors) (w : World)
    (st : BotState) (m : Msg) :
    seedsOk (on_message cfg det w st m).calls = true := by
  unfold on_message
  dsimp only
  repeat' split
  all_goals first
    | rfl
    | (rw [(activateMention_calls_nil cfg st m).1]; rfl)
    | (rw [(deactivateMention_calls_nil cfg st m).1]; rfl)
    | (rw [(wackMention_calls_nil cfg st m).1]; rfl)
    | exact dispatchMessage_seedsOk ..

theorem on_message_metaOk (cfg : Config) (det : Detectors) (w : World)
    (st : BotState) (m : Msg) :
    metaOkO (on_message cfg det w st m) = true := by
  unfold on_message
  dsimp only
  repeat' split
  all_goals first
    | rfl
    | (show metaOkO (activateMention cfg st m) = true
       unfold metaOkO
       rw [(activateMention_calls_nil cfg st m).2]
       rfl)
    | (show metaOkO (deactivateMention cfg st m) = true
       unfold metaOkO
       rw [(deactivateMention_calls_nil cfg st m).2]
       rfl)
    | (show metaOkO (wackMention cfg st m) = true
       unfold metaOkO
       rw [(wackMention_calls_nil cfg st m).2]
       rfl)
    | exact dispatchMessage_metaOk ..

/-! ### Image-count facts -/

theorem has_images_false_of_count_zero {atts : List Attachment}
    (h : count_images_in_message atts = 0) : has_images_in_message atts = false := by
  unfold count_images_in_message at h
  unfold has_images_in_message
  rw [List.length_eq_zero] at h
  rw [List.any_eq_false]
  intro a ha
  exact List.filter_eq_nil_iff.mp h a ha

theorem count_images_pos_of_has {atts : List Attachment}
    (h : has_images_in_message atts = true) : 0 < count_images_in_message atts := by
  unfold has_images_in_message at h
  unfold count_images_in_message
  rw [List.any_eq_true] at h
  obtain ⟨a, ha, hp⟩ := h
  exact List.length_pos.mpr (List.ne_nil_of_mem (List.mem_filter.mpr ⟨ha, hp⟩))

/-- A message with zero total images has no current images and no
referenced images. -/
theorem zero_images_bools {m : Msg} (h0 : total_image_count m = 0) :
    current_images m = false ∧ ref_has_images m = false := by
  unfold total_image_count at h0
  cases hr : ref_has_images m with
  | false =>
    rw [hr] at h0
    simp only [if_neg Bool.false_ne_true, Nat.add_zero] at h0
    exact ⟨has_images_false_of_count_zero h0, rfl⟩
  | true =>
    exfalso
    rw [hr] at h0
    unfold ref_has_images at hr
    cases hra : ref_msg_atts m with
    | none => rw [hra] at hr; simp at hr
    | some atts =>
      rw [hra] at hr h0
      simp only [if_pos] at h0
      have hpos := count_images_pos_of_has hr
      omega

/-! ### Claim theorems -/

/-- C1 (amended): within `on_message`, only the block check of the Access
Gate runs before classification and dispatch: a (non-bot) guild message of
a blocked author terminates at the block check with no capability call, no
send, no metadata write and no memory mutation.  (Pause and whitelist are
not evaluated in this path; the counterexample shows a paused guild being
dispatched.) -/
theorem claim_C1_blocked_before_dispatch (cfg : Config) (det : Detectors)
    (w : World) (st : BotState) (m : Msg) (gid : Nat)
    (hg : m.guildId = some gid) (hbot : m.authorIsBot = false)
    (hb : m.authorId ∈ st.blocked_users) :
    on_message cfg det w st m = ⟨[], [], [], [], .blockedReturn⟩ := by
  unfold on_message
  rw [hbot, hg]
  simp [hb]

/-- C4 (amended): `on_message` returns at line 399 for every guild-less
message, before the gate, the mention interpreter and the dispatcher; a
direct message is therefore never denied by the gate, but it is also never
answered: no send, no capability call, no state change. -/
theorem claim_C4_dm_never_processed (cfg : Config) (det : Detectors)
    (w : World) (st : BotState) (m : Msg) (h : m.guildId = none) :
    on_message cfg det w st m = ⟨[], [], [], [], .ignoredBotOrDM⟩ := by
  unfold on_message
  rw [h]
  split
  · rfl
  · rfl

/-- C6: a message with at least one image (current, or in its successfully
resolved reference) is never classified as wanting generation, and no run
of `on_message` on it performs a generation-capability call. -/
theorem claim_C6_images_never_generation (cfg : Config) (det : Detectors)
    (w : World) (st : BotState) (m : Msg) (h : has_any_images m = true) :
    (intents_of det m).wants_generation = false ∧
      noGenCalls (on_message cfg det w st m).calls = true := by
  have hw : (intents_of det m).wants_generation = false := by
    simp [intents_of, h]
  refine ⟨hw, ?_⟩
  unfold on_message
  dsimp only
  repeat' split
  all_goals first
    | rfl
    | (rw [(activateMention_calls_nil cfg st m).1]; rfl)
    | (rw [(deactivateMention_calls_nil cfg st m).1]; rfl)
    | (rw [(wackMention_calls_nil cfg st m).1]; rfl)
    | exact dispatchMessage_noGen _ _ _ hw

/-- C8: a trigger-eligible message classified as wanting editing with zero
total images is answered by the dispatcher with exactly the corrective
no-image-found notice (auto-dismissed after 30 s); no capability call of
any kind is made and no metadata or memory state is written. -/
theorem claim_C8_editing_without_images (det : Detectors) (w : World) (m : Msg)
    (het : (intents_of det m).wants_editing = true)
    (h0 : total_image_count m = 0) :
    dispatchMessage det w m =
      ⟨[], [⟨.noImageFoundNotice, some 30⟩], [], [], .dispatched⟩ := by
  obtain ⟨hc, hr⟩ := zero_images_bools h0
  have hm : mergeBranch w m (intents_of det m).wants_merge = noneStep := by
    unfold mergeBranch
    rw [h0]
    simp
  have hb : batchEditBranch w m (intents_of det m).wants_editing
      (intents_of det m).wants_merge = noneStep := by
    unfold batchEditBranch
    rw [h0]
    simp
  have hs : singleEditBranch w m (intents_of det m).wants_editing = noneStep := by
    unfold singleEditBranch
    rw [h0]
    simp
  have hn : noImageBranch m (intents_of det m).wants_editing =
      ⟨[], [⟨.noImageFoundNotice, some 30⟩], [], [], some .dispatched⟩ := by
    unfold noImageBranch
    rw [het, hc, hr]
    rfl
  unfold dispatchMessage
  dsimp only
  rw [hm, hb, hs, hn]
  rfl

/-- C9 (amended): a non-command guild message with no attachments that is
not trigger-eligible (channel not activated, bot-name keyword absent) is
dropped at the eligibility check (line 603): no dispatch occurs and the
handler returns early without reaching `bot.process_commands`. -/
theorem claim_C9_not_eligible_early_return (cfg : Config) (det : Detectors)
    (w : World) (st : BotState) (m : Msg) (gid : Nat)
    (hbot : m.authorIsBot = false) (hg : m.guildId = some gid)
    (hb : m.authorId ∉ st.blocked_users) (hment : m.mentionsBot = false)
    (hatt : m.attachments = [])
    (hpfx : startsWithStr (stripStr m.content)
        ((lookupByGuildKey st.custom_prefixes gid).getD cfg.defaultPfx) = false)
    (hslash : startsWithStr (stripStr m.content) slashStr = false)
    (hctx : w.ctxValid = false)
    (hact : (st.memoryAvailable && st.activeChannels.contains m.channelId) = false)
    (hname : strContains (lowerStr m.content) cfg.botName = false) :
    on_message cfg det w st m = ⟨[], [], [], [], .notEligible⟩ := by
  have hsr : should_respond cfg st m = false := by
    simp [should_respond, hname]
    intro hmem
    rw [hmem] at hact
    simpa using hact
  unfold on_message
  rw [hbot, hg]
  simp [hb, hment, hpfx, hslash, hctx, hsr]

/-- C7: for a guild command invocation the gate evaluates the freshly
re-loaded settings (`load_settings` of the backing store) in the order
blocked, then paused, then non-empty whitelist, denying with notices whose
lifetimes are 15 s, 30 s and 30 s respectively, and allows otherwise. -/
theorem claim_C7_command_gate_order (old : LoadedSettings)
    (store : Option SettingsDoc) (ctx : CmdCtx) (gid : Nat)
    (hg : ctx.guildId = some gid) :
    (ctx.authorId ∈ (load_settings old store).blocked_users →
      global_command_check old store ctx = .denied ⟨.cmdUserBlocked, some 15⟩) ∧
    (ctx.authorId ∉ (load_settings old store).blocked_users →
      gid ∈ (load_settings old store).paused_servers →
      global_command_check old store ctx = .denied ⟨.cmdBotPaused, some 30⟩) ∧
    (∀ wl, ctx.authorId ∉ (load_settings old store).blocked_users →
      gid ∉ (load_settings old store).paused_servers →
      lookupByGuildKey (load_settings old store).whitelisted_channels gid = some wl →
      wl ≠ [] → ctx.channelId ∉ wl →
      global_command_check old store ctx = .denied ⟨.cmdNotWhitelisted, some 30⟩) ∧
    (ctx.authorId ∉ (load_settings old store).blocked_users →
      gid ∉ (load_settings old store).paused_servers →
      (∀ wl, lookupByGuildKey (load_settings old store).whitelisted_channels gid = some wl →
        wl = [] ∨ ctx.channelId ∈ wl) →
      global_command_check old store ctx = .allowed) := by
  unfold global_command_check
  rw [hg]
  dsimp only
  refine ⟨?_, ?_, ?_, ?_⟩
  · intro h
    rw [if_pos h]
  · intro h1 h2
    rw [if_neg h1, if_pos h2]
  · intro wl h1 h2 h3 h4 h5
    rw [if_neg h1, if_neg h2, h3]
    dsimp only
    rw [if_pos h4, if_pos h5]
  · intro h1 h2 h3
    rw [if_neg h1, if_neg h2]
    cases hl : lookupByGuildKey (load_settings old store).whitelisted_channels gid with
    | none => rfl
    | some wl =>
      dsimp only
      rcases h3 wl hl with he | hin
      · rw [if_neg (by simp [he])]
      · by_cases hne : wl = []
        · rw [if_neg (by simp [hne])]
        · rw [if_pos hne, if_neg (not_not_intro hin)]

/-! ### Concrete fixtures for witnesses and counterexamples -/

/-- Owner id 1, bot name `gacha`, default command marker `+`. -/
def fixCfg : Config := ⟨1, r"gacha", r"+"⟩

/-- Detectors that match nothing. -/
def detNone : Detectors :=
  ⟨fun _ => false, fun _ _ => false, fun _ => false, fun _ _ => false⟩

/-- Detectors whose generation heuristic fires exactly on `draw a cat`. -/
def detGen : Detectors :=
  ⟨fun t => t == r"draw a cat", fun _ _ => false, fun _ => false, fun _ _ => false⟩

/-- Detectors whose editing heuristic always fires. -/
def detEdit : Detectors :=
  ⟨fun _ => false, fun _ _ => true, fun _ => false, fun _ _ => false⟩

/-- Detectors whose merge heuristic always fires. -/
def detMerge : Detectors :=
  ⟨fun _ => false, fun _ _ => false, fun _ => false, fun _ _ => true⟩

/-- A world in which every capability succeeds. -/
def fixWorld : World where
  classify_prompt := fun _ => .ok (r"SAFE")
  generate_image_merge := fun _ _ => ⟨true, none⟩
  generate_img2img_with_retry := fun _ _ _ => .ok ⟨true, none⟩
  generate_image := fun _ _ => ⟨true, true, 123456, none⟩
  get_valid_search_results := fun _ => none
  web_ai_response := (none, none)
  generate_response_web := fun _ => none
  sendOutcome := .success 42
  randValue := fun _ => 7
  ctxValid := false
  downloadStatus := 200
  analysis := r"a cat"

/-- `fixWorld`, but the file-send is rejected by the platform with the
explicit-content error 20009. -/
def worldC5A : World := { fixWorld with sendOutcome := .explicitContentError }

/-- `fixWorld`, but editing succeeds only for the first image, so a batch
edit has one success and one failure. -/
def worldC5B : World :=
  { fixWorld with
    generate_img2img_with_retry := fun _ u _ =>
      if u == r"http://x/a.png" then .ok ⟨true, none⟩
      else .ok ⟨false, some (r"boom")⟩ }

/-- Channel 7 is activated; nothing blocked or paused. -/
def stActive : BotState := ⟨[], [], [], [], [], true, [7], []⟩

/-- Guild 5 is paused AND channel 7 is activated. -/
def stPaused : BotState := ⟨[], [5], [], [], [], true, [7], []⟩

/-- User 2 is blocked. -/
def stBlocked : BotState := ⟨[2], [], [], [], [], true, [7], []⟩

/-- No channel activated, nothing blocked or paused, no whitelist. -/
def stQuiet : BotState := ⟨[], [], [], [], [], true, [], []⟩

/-- Author 2 (not a bot, not admin) says `draw a cat` in guild 5, channel 7. -/
def msgDraw : Msg := ⟨false, 2, some 5, 7, r"draw a cat", [], .noRef, false, false, []⟩

/-- An administrator mentions the bot with the `deactivate` keyword. -/
def msgDeact : Msg := ⟨false, 2, some 5, 7, r"<@99> deactivate", [], .noRef, true, true, []⟩

/-- A message with a single image attachment and non-intent text. -/
def msgPhoto : Msg :=
  ⟨false, 2, some 5, 7, r"what is this",
   [⟨r"photo.png", r"http://x/photo.png"⟩], .noRef, false, false, []⟩

/-- A message with two image attachments. -/
def msgTwoImgs : Msg :=
  ⟨false, 2, some 5, 7, r"merge these",
   [⟨r"a.png", r"http://x/a.png"⟩, ⟨r"b.png", r"http://x/b.png"⟩],
   .noRef, false, false, []⟩

/-- A direct message (no guild) containing the bot name. -/
def msgDM : Msg := ⟨false, 2, none, 7, r"gacha hello", [], .noRef, false, false, []⟩

/-- An editing request with no image anywhere. -/
def msgEditNoImg : Msg :=
  ⟨false, 2, some 5, 7, r"make it night", [], .noRef, false, false, []⟩

/-- A settings store in which user 9 is blocked, guild 5 is paused and
guild 5 whitelists only channel 7. -/
def fixStore : Option SettingsDoc := some ⟨some [9], some [5], some [(r"5", [7])]⟩

/-- Empty in-memory settings (to be replaced by the reload). -/
def fixOld : LoadedSettings := ⟨[], [], []⟩

/-- A command by blocked user 9 in guild 5, channel 3. -/
def fixCtxBlocked : CmdCtx := ⟨some 5, 9, 3⟩

/-! ### Closed claim theorems, witnesses and counterexamples -/

/-- C1 counterexample: guild 5 is paused (`stPaused`), yet the message is
dispatched to the generation capability because channel 7 is activated —
the pause and whitelist checks are not part of the `on_message` path, so
the full Access Gate does NOT run before classification and dispatch. -/
theorem claim_C1_counterexample :
    5 ∈ stPaused.paused_servers ∧
      CapCall.generateImage (r"draw a cat") 2 ∈
        (on_message fixCfg detGen fixWorld stPaused msgDraw).calls := by
  decide

/-- C1 witness: the blocked author 2 in guild 5 terminates at the block
check with no effects. -/
theorem claim_C1_witness :
    on_message fixCfg detGen fixWorld stBlocked msgDraw =
      ⟨[], [], [], [], .blockedReturn⟩ :=
  claim_C1_blocked_before_dispatch fixCfg detGen fixWorld stBlocked msgDraw 5
    rfl rfl (by decide)

/-- C2 (code bug): a mention message by an administrator containing
`deactivate` executes the ACTIVATE branch, because `deactivate` contains
the substring `activate` and line 412 checks that keyword first; the
channel (already active) is re-activated and the activation confirmation
is sent.  The deactivate branch (lines 446-486) is unreachable for any
content, contradicting the documented deactivate behavior. -/
theorem claim_C2_deactivate_runs_activate_branch :
    on_message fixCfg detNone fixWorld stActive msgDeact =
      ⟨[], [⟨.channelActivatedNotice, none⟩], [],
       [.activateChannel 7], .mentionHandled⟩ := by
  decide

/-- C3 (code bug): at a trigger-eligible message with one image and no
matching intent, the handler downloads and analyzes the image, but then
dereferences the unassigned name `message_content` (line 1078); the
`NameError` is swallowed by the blanket `except` and the handler falls
through to command processing WITHOUT sending the analysis reply the
claim describes. -/
theorem claim_C3_analysis_reply_never_sent :
    on_message fixCfg detNone fixWorld stActive msgPhoto =
      ⟨[CapCall.downloadImage (r"http://x/photo.png"), CapCall.analyzeImage],
       [], [], [], .fellThroughToCommands⟩ := by
  decide

/-- C4 counterexample: a direct message containing the bot name keyword
gets no response whatsoever — the handler returns at line 399 before the
gate, eligibility or dispatch, falsifying the claim that such DMs are
dispatched. -/
theorem claim_C4_counterexample :
    strContains (lowerStr msgDM.content) fixCfg.botName = true ∧
      on_message fixCfg detGen fixWorld stActive msgDM =
        ⟨[], [], [], [], .ignoredBotOrDM⟩ := by
  decide

/-- C4 witness: a concrete guild-less message is ignored entirely. -/
theorem claim_C4_witness :
    on_message fixCfg detNone fixWorld stQuiet msgDM =
      ⟨[], [], [], [], .ignoredBotOrDM⟩ :=
  claim_C4_dm_never_processed fixCfg detNone fixWorld stQuiet msgDM rfl

/-- C5 (amended): every outbound message of every `on_message` run carries
exactly the `delete_after` of its send site (`expectedDelete`): the
NSFW-blocked, capability-failure, corrective and generation-failure
notices AND the partial-batch-failure summary are auto-dismissed after
30 seconds, while the platform explicit-content rejection notices and the
generic send-failure notices are sent without auto-dismiss. -/
theorem claim_C5_notice_lifetimes (cfg : Config) (det : Detectors) (w : World)
    (st : BotState) (m : Msg) :
    sendsConform (on_message cfg det w st m).sends = true :=
  on_message_sendsConform cfg det w st m

/-- C5 counterexample: (a) the merge platform-rejection notice is sent
with no `delete_after`, though the claim requires a 30-second
auto-dismiss for it; (b) the partial-batch-failure summary is sent WITH
`delete_after = 30`, though the claim exempts it from auto-dismissal. -/
theorem claim_C5_counterexample :
    (⟨.mergeContentBlocked, none⟩ : Send) ∈
        (on_message fixCfg detMerge worldC5A stActive msgTwoImgs).sends ∧
      (⟨.batchPartialSummary, some 30⟩ : Send) ∈
        (on_message fixCfg detEdit worldC5B stActive msgTwoImgs).sends := by
  decide

/-- C6 witness: a message with one image is never classified as wanting
generation and never triggers a generation call. -/
theorem claim_C6_witness :
    (intents_of detGen msgPhoto).wants_generation = false ∧
      noGenCalls (on_message fixCfg detGen fixWorld stActive msgPhoto).calls = true :=
  claim_C6_images_never_generation fixCfg detGen fixWorld stActive msgPhoto (by decide)

/-- C7 witness: with stale empty in-memory settings, the gate re-loads the
store (in which user 9 is blocked) and denies with the 15-second notice. -/
theorem claim_C7_witness :
    global_command_check fixOld fixStore fixCtxBlocked =
      .denied ⟨.cmdUserBlocked, some 15⟩ :=
  (claim_C7_command_gate_order fixOld fixStore fixCtxBlocked 5 rfl).1 (by decide)

/-- C8 witness: an editing request with zero images yields exactly the
corrective notice and no capability call. -/
theorem claim_C8_witness :
    dispatchMessage detEdit fixWorld msgEditNoImg =
      ⟨[], [⟨.noImageFoundNotice, some 30⟩], [], [], .dispatched⟩ :=
  claim_C8_editing_without_images detEdit fixWorld msgEditNoImg (by decide) (by decide)

/-- C9 counterexample: at the scenario input (text `draw a cat`, no
attachments, channel inactive, name keyword absent) the handler stops at
the eligibility check: no dispatch occurs, but contrary to the claim it
does NOT fall through to prefixed-command processing (line 1100) — it
returns at line 603 without calling `process_commands`. -/
theorem claim_C9_counterexample :
    (on_message fixCfg detGen fixWorld stQuiet msgDraw).result = .notEligible ∧
      (on_message fixCfg detGen fixWorld stQuiet msgDraw).result ≠ .fellThroughToCommands ∧
      (on_message fixCfg detGen fixWorld stQuiet msgDraw).result ≠ .commandProcessed := by
  decide

/-- C9 witness: the scenario message is dropped at the eligibility check
with no effects. -/
theorem claim_C9_witness :
    on_message fixCfg detGen fixWorld stQuiet msgDraw =
      ⟨[], [], [], [], .notEligible⟩ :=
  claim_C9_not_eligible_early_return fixCfg detGen fixWorld stQuiet msgDraw 5
    rfl rfl (by decide) rfl rfl (by decide) (by decide) rfl (by decide) (by decide)

/-- C10: every img2img capability call — single-image or batch — uses a
seed drawn by `randint` into the inclusive range [100000, 999999], and
every response-metadata entry of type `img2img` stores exactly the prompt
and the seed of an img2img call made in the same run. -/
theorem claim_C10_edit_seed_range_and_metadata (cfg : Config) (det : Detectors)
    (w : World) (st : BotState) (m : Msg) :
    seedsOk (on_message cfg det w st m).calls = true ∧
      metaOkO (on_message cfg det w st m) = true :=
  ⟨on_message_seedsOk cfg det w st m, on_message_metaOk cfg det w st m⟩

end Coder
